import Mathlib

/-!
Shallow embedding of the two controller modules of the video_social backend
(src/controllers/comentController.js and src/controllers/userController.js).

Database collections are embedded as Lean lists of records; each request
handler becomes a pure function from the relevant stores and request data to
the updated stores together with an `Except` result: `Except.error` models a
thrown error (an ApiError carrying an HTTP status, or a raw JavaScript
TypeError from dereferencing undefined), `Except.ok` models the response the
handler returns (status, cookie operations, JSON body).

External library calls (JWT verification, password checking, Cloudinary
uploads) are passed in as function parameters, since their code is outside
this repository.
-/

set_option autoImplicit false

namespace VideoSocial

/-- JavaScript truthiness of an optional string: undefined and the empty
string are falsy, every other string is truthy. -/
def jsTruthy : Option String → Bool
  | none => false
  | some s => s ≠ ""

/-- JavaScript logical or on optional strings: the left operand when truthy,
otherwise the right operand. -/
def jsOr (a b : Option String) : Option String :=
  if jsTruthy a then a else b

/-- Errors a handler can throw: `api` is an ApiError with an HTTP status
code and a message; `typeError` is a raw JavaScript TypeError (e.g. indexing
a property of undefined). -/
inductive JsError where
  | api (statusCode : Nat) (message : String)
  | typeError (message : String)
  deriving Repr, DecidableEq

/-- Cookie flags passed as the options object of res.cookie / res.clearCookie. -/
structure CookieOptions where
  httpOnly : Bool
  secure : Bool
  deriving Repr, DecidableEq

/-- A cookie operation performed while building a response: setting a cookie
to a value (an `Option String`, since JavaScript may pass undefined) or
clearing one. -/
inductive CookieOp where
  | set (cname : String) (value : Option String) (opts : CookieOptions)
  | clear (cname : String) (opts : CookieOptions)
  deriving Repr, DecidableEq

/-- Whether a cookie operation carries both the httpOnly and secure flags. -/
def CookieOp.isSecureHttpOnly : CookieOp → Bool
  | .set _ _ o => o.httpOnly && o.secure
  | .clear _ o => o.httpOnly && o.secure

/-- The uniform JSON response envelope new ApiResponse(statusCode, data, message). -/
structure ApiResp (α : Type) where
  statusCode : Nat
  data : α
  message : String
  deriving Repr, DecidableEq

/-- A finished HTTP response: the status passed to res.status, the cookie
operations chained on the response, and the JSON body. -/
structure Res (α : Type) where
  status : Nat
  cookies : List CookieOp
  body : ApiResp α
  deriving Repr, DecidableEq

/-- The cookie options object used throughout userController.js:
httpOnly: true, secure: true. -/
def secureOptions : CookieOptions := { httpOnly := true, secure := true }

/-! ## Data model

Record shapes for the documents the controllers touch. Identifiers are
embedded as natural numbers. -/

/-- A User document, with the fields userController.js reads and writes.
Fields that registration copies straight from the request body are optional,
because the body may omit them. -/
structure UserRec where
  id : Nat
  username : String
  email : Option String
  fullName : Option String
  password : Option String
  avatar : String
  coverImage : String
  refreshToken : Option String
  deriving Repr, DecidableEq

/-- A Comment document: content, the video it belongs to, its owner, and its
creation time (used by the sort stage). -/
structure CommentRec where
  id : Nat
  content : String
  video : Nat
  owner : Nat
  createdAt : Nat
  deriving Repr, DecidableEq

/-- A Like document on a comment. -/
structure LikeRec where
  id : Nat
  comment : Nat
  likedBy : Nat
  deriving Repr, DecidableEq

/-- A Subscription document, matched on its channel field by
getUserChannelProfile. The subscriber field keeps the spelling used in the
source pipeline. -/
structure SubscriptionRec where
  id : Nat
  channel : Nat
  subsciber : Nat
  deriving Repr, DecidableEq

/-! ## Comment controller: getVideoComments pipeline stages -/

/-- A comment after the two lookup stages: the base document plus the joined
owner documents and like documents. -/
structure CommentJoined where
  base : CommentRec
  ownerDocs : List UserRec
  likeDocs : List LikeRec
  deriving Repr, DecidableEq

/-- A comment after the addFields stage: likesCount, the first owner
document, and whether the requesting user liked it. -/
structure CommentDerived where
  base : CommentRec
  owner : Option UserRec
  likesCount : Nat
  isLiked : Bool
  deriving Repr, DecidableEq

/-- The owner subdocument kept by the project stage. -/
structure OwnerProj where
  username : String
  fullName : Option String
  avatarUrl : String
  deriving Repr, DecidableEq

/-- A comment as shaped by the project stage for the response. -/
structure CommentView where
  content : String
  createdAt : Nat
  likesCount : Nat
  owner : Option OwnerProj
  isLiked : Bool
  deriving Repr, DecidableEq

/-- Stage 1, $match: keep the comments of the requested video. -/
def matchStage (videoId : Nat) (cs : List CommentRec) : List CommentRec :=
  cs.filter (fun c => c.video == videoId)

/-- Stage 2, $lookup from users on owner: attach the matching user documents. -/
def lookupOwnerStage (users : List UserRec) (cs : List CommentRec) : List CommentJoined :=
  cs.map (fun c => { base := c, ownerDocs := users.filter (fun u => u.id == c.owner), likeDocs := [] })

/-- Stage 3, $lookup from likes on comment: attach the matching like documents. -/
def lookupLikesStage (likes : List LikeRec) (cs : List CommentJoined) : List CommentJoined :=
  cs.map (fun c => { c with likeDocs := likes.filter (fun l => l.comment == c.base.id) })

/-- Stage 4, $addFields: likesCount is the size of the joined likes, owner is
the first joined owner document, isLiked tests membership of the requesting
user in the likedBy fields (false when the request has no user). -/
def addFieldsStage (reqUserId : Option Nat) (cs : List CommentJoined) : List CommentDerived :=
  cs.map (fun c =>
    { base := c.base
      owner := c.ownerDocs.head?
      likesCount := c.likeDocs.length
      isLiked := match reqUserId with
        | some u => c.likeDocs.any (fun l => l.likedBy == u)
        | none => false })

/-- Stable descending insertion by createdAt: an element moves before another
only when its createdAt is strictly greater. -/
def insertByCreatedAtDesc (c : CommentDerived) : List CommentDerived → List CommentDerived
  | [] => [c]
  | x :: xs =>
    if x.base.createdAt < c.base.createdAt then c :: x :: xs
    else x :: insertByCreatedAtDesc c xs

/-- Stage 5, $sort on createdAt: -1, a stable descending sort. -/
def sortStage (cs : List CommentDerived) : List CommentDerived :=
  cs.foldr insertByCreatedAtDesc []

/-- Stage 6, $project: keep content, createdAt, likesCount, the owner
subfields and isLiked. -/
def projectStage (cs : List CommentDerived) : List CommentView :=
  cs.map (fun c =>
    { content := c.base.content
      createdAt := c.base.createdAt
      likesCount := c.likesCount
      owner := c.owner.map (fun u => { username := u.username, fullName := u.fullName, avatarUrl := u.avatar })
      isLiked := c.isLiked })

/-- aggregatePaginate with options page and limit: the page-th slice of size
limit (pages count from 1). -/
def paginateStage (page limit : Nat) (cs : List CommentView) : List CommentView :=
  (cs.drop ((page - 1) * limit)).take limit

/-- getVideoComments (comentController.js lines 8-84): look up the video,
404 when absent, otherwise run the aggregation pipeline on the comments of
the video and paginate it with the page and limit query parameters
(defaulting to 1 and 10). -/
def getVideoComments (videos : List Nat) (comments : List CommentRec)
    (users : List UserRec) (likes : List LikeRec)
    (videoId : Nat) (page limit : Option Nat) (reqUserId : Option Nat) :
    Except JsError (Res (List CommentView)) :=
  match videos.find? (fun v => v == videoId) with
  | none => .error (.api 404 "Video not found")
  | some _ =>
    let pipeline :=
      projectStage
        (sortStage
          (addFieldsStage reqUserId
            (lookupLikesStage likes
              (lookupOwnerStage users
                (matchStage videoId comments)))))
    let paged := paginateStage (page.getD 1) (limit.getD 10) pipeline
    .ok { status := 200, cookies := [], body := ⟨200, paged, "Comments fetched successfully"⟩ }

/-! ## Comment controller: addComment, updateComment, deleteComment -/

/-- addComment (comentController.js lines 86-113): reject falsy content with
400, look up the video (404 when absent), create the comment and respond 201.
The created document gets a fresh identifier newId and timestamp now. -/
def addComment (videos : List Nat) (comments : List CommentRec)
    (videoId : Nat) (content : Option String) (reqUserId : Nat)
    (newId now : Nat) :
    List CommentRec × Except JsError (Res CommentRec) :=
  if !(jsTruthy content) then
    (comments, .error (.api 400 "Content is required"))
  else
    match videos.find? (fun v => v == videoId) with
    | none => (comments, .error (.api 404 "Video not found"))
    | some _ =>
      let comment : CommentRec :=
        { id := newId, content := content.getD "", video := videoId
          owner := reqUserId, createdAt := now }
      (comments ++ [comment],
        .ok { status := 201, cookies := [], body := ⟨201, comment, "Comment added successfully"⟩ })

/-- updateComment (comentController.js lines 115-150): reject falsy content
with 400, look up the comment (404 when absent), reject a requester other
than the owner with 400, then set the content and respond 200 with the
updated document. -/
def updateComment (comments : List CommentRec)
    (commentId : Nat) (content : Option String) (reqUserId : Nat) :
    List CommentRec × Except JsError (Res CommentRec) :=
  if !(jsTruthy content) then
    (comments, .error (.api 400 "content is required"))
  else
    match comments.find? (fun c => c.id == commentId) with
    | none => (comments, .error (.api 404 "Comment not found"))
    | some comment =>
      if comment.owner != reqUserId then
        (comments, .error (.api 400 "only comment owner can edit their comment"))
      else
        let comments2 := comments.map (fun c =>
          if c.id == comment.id then { c with content := content.getD "" } else c)
        match comments2.find? (fun c => c.id == comment.id) with
        | none => (comments2, .error (.api 500 "Failed to edit comment please try again"))
        | some updated =>
          (comments2, .ok { status := 200, cookies := [], body := ⟨200, updated, "Comment edited successfully"⟩ })

/-- Like.deleteMany of the cleanup step in deleteComment. The identifier Like
is never imported by comentController.js, so evaluating the statement throws
a ReferenceError before any like is deleted. -/
def likeCleanup (_likes : List LikeRec) (_commentId _reqUserId : Nat) :
    Except String (List LikeRec) :=
  .error "Like is not defined"

/-- deleteComment (comentController.js lines 152-180): look up the comment
(404 when absent), reject a requester other than the owner with 400, delete
the comment, attempt the like cleanup inside try/catch (errors are only
logged), and respond 200 with the comment id. -/
def deleteComment (comments : List CommentRec) (likes : List LikeRec)
    (commentId : Nat) (reqUserId : Nat) :
    List CommentRec × List LikeRec × Except JsError (Res Nat) :=
  match comments.find? (fun c => c.id == commentId) with
  | none => (comments, likes, .error (.api 404 "Comment not found"))
  | some comment =>
    if comment.owner != reqUserId then
      (comments, likes, .error (.api 400 "only comment owner can delete their comment"))
    else
      let comments2 := comments.filter (fun c => !(c.id == commentId))
      let likes2 := match likeCleanup likes commentId reqUserId with
        | .ok l => l
        | .error _ => likes
      (comments2, likes2,
        .ok { status := 200, cookies := [], body := ⟨200, commentId, "Comment deleted successfully"⟩ })

/-! ## User controller: registration -/

/-- A user document after select("-password -refreshToken"). -/
structure PublicUser where
  id : Nat
  username : String
  email : Option String
  fullName : Option String
  avatar : String
  coverImage : String
  deriving Repr, DecidableEq

/-- select("-password -refreshToken") on a user document. -/
def selectPublic (u : UserRec) : PublicUser :=
  { id := u.id, username := u.username, email := u.email
    fullName := u.fullName, avatar := u.avatar, coverImage := u.coverImage }

/-- One entry of a multer file array: only its path is read. -/
structure FileEntry where
  path : String
  deriving Repr, DecidableEq

/-- The JavaScript String.prototype.trim builtin: strip leading and trailing
whitespace, embedded over the character list of the string. -/
def jsTrim (s : String) : String :=
  ⟨((s.data.dropWhile Char.isWhitespace).reverse.dropWhile Char.isWhitespace).reverse⟩

/-- The JavaScript String.prototype.toLowerCase builtin, embedded over the
character list of the string. -/
def jsToLowerCase (s : String) : String :=
  ⟨s.data.map Char.toLower⟩

/-- req.files: the per-field file arrays, each possibly absent. -/
structure Files where
  avatar : Option (List FileEntry)
  coverImage : Option (List FileEntry)
  deriving Repr, DecidableEq

/-- Evaluation of req.files?.FIELD[0]?.path with JavaScript optional-chaining
semantics: when req.files is undefined the whole chain is undefined; when it
is present but the field array is absent, indexing [0] on undefined throws a
TypeError; an empty array yields undefined. -/
def filesIndexPath (files : Option Files) (field : Files → Option (List FileEntry)) :
    Except JsError (Option String) :=
  match files with
  | none => .ok none
  | some fs =>
    match field fs with
    | none => .error (.typeError "Cannot read properties of undefined")
    | some arr => .ok (arr.head?.map (fun e => e.path))

/-- User.findOne({ $or: [{ username }, { email }] }): the first stored user
whose username or email equals the provided one; an absent request field
matches no stored user. -/
def findOneOr (users : List UserRec) (username email : Option String) : Option UserRec :=
  users.find? (fun u =>
    (match username with | some s => u.username == s | none => false)
    || (match email with | some s => u.email == some s | none => false))

/-- registerUser (userController.js lines 7-53): reject when a provided field
trims to the empty string (400), reject a username or email conflict (409),
evaluate the avatar and cover-image paths from req.files, reject a falsy
avatar path (400), upload both files (the upload parameter embeds
uploadOnCloudinary, returning the hosted url or none on failure), reject a
failed avatar upload (400), create the user with the lowercased username and
the cover-image url defaulted to the empty string, and respond 201. -/
def registerUser (users : List UserRec)
    (fullName email username password : Option String)
    (files : Option Files)
    (upload : Option String → Option String)
    (newId : Nat) :
    List UserRec × Except JsError (Res PublicUser) :=
  if [fullName, email, username, password].any (fun f =>
      match f with | some s => jsTrim s == "" | none => false) then
    (users, .error (.api 400 "All fields are required"))
  else
    match findOneOr users username email with
    | some _ => (users, .error (.api 409 "User already exists"))
    | none =>
      match filesIndexPath files (fun fs => fs.avatar) with
      | .error e => (users, .error e)
      | .ok avatarLocalPath =>
        match filesIndexPath files (fun fs => fs.coverImage) with
        | .error e => (users, .error e)
        | .ok coverImageLocalPath =>
          if !(jsTruthy avatarLocalPath) then
            (users, .error (.api 400 "Avatar file is required"))
          else
            let avatar := upload avatarLocalPath
            let coverImage := upload coverImageLocalPath
            match avatar with
            | none => (users, .error (.api 400 "Avatar file is required"))
            | some avatarUrl =>
              match username with
              | none => (users, .error (.typeError "Cannot read properties of undefined"))
              | some uname =>
                let newUser : UserRec :=
                  { id := newId, username := jsToLowerCase uname, email := email
                    fullName := fullName, password := password
                    avatar := avatarUrl, coverImage := coverImage.getD ""
                    refreshToken := none }
                let users2 := users ++ [newUser]
                match users2.find? (fun u => u.id == newId) with
                | none => (users2, .error (.api 500 "User not created"))
                | some created =>
                  (users2, .ok { status := 201, cookies := []
                                 body := ⟨200, selectPublic created, "User Registered Successfully"⟩ })

/-! ## User controller: tokens, login, logout, refresh -/

/-- The object returned by generateAccessAndRefreshTokens, embedded as
JavaScript property lookup: reading any key other than accessToken or
refreshToken yields undefined. -/
def tokenObjectGet (accessToken refreshToken : String) : String → Option String :=
  fun key =>
    if key == "accessToken" then some accessToken
    else if key == "refreshToken" then some refreshToken
    else none

/-- generateAccessAndRefreshTokens (userController.js lines 56-71): find the
user, generate the two tokens (their values are the newAccess and newRefresh
parameters, since signing is library code), store the refresh token on the
user record, and return the token object; any error inside becomes a 500
ApiError. -/
def generateAccessAndRefreshTokens (users : List UserRec) (userId : Nat)
    (newAccess newRefresh : String) :
    List UserRec × Except JsError (String → Option String) :=
  match users.find? (fun u => u.id == userId) with
  | none => (users, .error (.api 500 "Something went wrong while generating refresh access token"))
  | some _ =>
    let users2 := users.map (fun u =>
      if u.id == userId then { u with refreshToken := some newRefresh } else u)
    (users2, .ok (tokenObjectGet newAccess newRefresh))

/-- The JSON body of a successful login. -/
structure LoginData where
  user : Option PublicUser
  accessToken : Option String
  refreshToken : Option String
  deriving Repr, DecidableEq

/-- loginUser (userController.js lines 73-111): require a username or email
(400), find the user (404), check the password (401), generate and store new
tokens, and respond 200 with both tokens set as httpOnly/secure cookies. The
checkPassword parameter embeds the bcrypt comparison. -/
def loginUser (users : List UserRec)
    (username email password : Option String)
    (checkPassword : UserRec → Option String → Bool)
    (newAccess newRefresh : String) :
    List UserRec × Except JsError (Res LoginData) :=
  if !(jsTruthy (jsOr username email)) then
    (users, .error (.api 400 "Username or email is required"))
  else
    match findOneOr users username email with
    | none => (users, .error (.api 404 "User not found"))
    | some user =>
      if !(checkPassword user password) then
        (users, .error (.api 401 "Invalid password"))
      else
        match generateAccessAndRefreshTokens users user.id newAccess newRefresh with
        | (users2, .error e) => (users2, .error e)
        | (users2, .ok tokenObj) =>
          let accessToken := tokenObj "accessToken"
          let refreshToken := tokenObj "refreshToken"
          let loggedInUser := (users2.find? (fun u => u.id == user.id)).map selectPublic
          (users2, .ok
            { status := 200
              cookies := [.set "accessToken" accessToken secureOptions,
                          .set "refreshToken" refreshToken secureOptions]
              body := ⟨200, ⟨loggedInUser, accessToken, refreshToken⟩,
                       "User Logged In Successfully"⟩ })

/-- The update document of logoutUser: User.findByIdAndUpdate with
$set: refreshToken to undefined, embedded as clearing the optional field of
the matching user record. -/
def clearRefreshToken (reqUserId : Nat) (u : UserRec) : UserRec :=
  if u.id == reqUserId then { u with refreshToken := none } else u

/-- logoutUser (userController.js lines 113-133): set the stored refresh
token of the requesting user to undefined (embedded as clearing the optional
field), clear both token cookies with the httpOnly/secure options, and
respond 200. -/
def logoutUser (users : List UserRec) (reqUserId : Nat) :
    List UserRec × Res Unit :=
  let users2 := users.map (clearRefreshToken reqUserId)
  (users2,
    { status := 200
      cookies := [.clear "accessToken" secureOptions, .clear "refreshToken" secureOptions]
      body := ⟨200, (), "User Logged Out Successfully"⟩ })

/-- The JSON body of a successful token refresh; both fields are optional
strings because the source may place undefined in them. -/
structure RefreshData where
  accessToken : Option String
  refreshToken : Option String
  deriving Repr, DecidableEq

/-- The message extracted from a caught error by the catch clause of
refreshAccessToken. -/
def catchMessage : JsError → String
  | .api _ m => m
  | .typeError m => m

/-- refreshAccessToken (userController.js lines 135-173): take the refresh
token from the cookie or the body (401 when absent), verify it (the
jwtVerify parameter embeds jwt.verify, returning the decoded user id or an
error message; the source module in fact never imports jwt, so at runtime
this step throws a ReferenceError that the catch clause converts to a 401),
find the user (401), compare the incoming token with the stored one (401 on
mismatch), then generate and store new tokens and respond 200. The source
destructures the property newRefreshToken from the token object, whose keys
are accessToken and refreshToken, so the value placed in the refresh-token
cookie and body is undefined. Every error thrown inside the try block is
re-thrown by the catch clause as a 401 ApiError with its message. -/
def refreshAccessToken (users : List UserRec)
    (cookieToken bodyToken : Option String)
    (jwtVerify : String → Except String Nat)
    (newAccess newRefresh : String) :
    List UserRec × Except JsError (Res RefreshData) :=
  let incoming := jsOr cookieToken bodyToken
  if !(jsTruthy incoming) then
    (users, .error (.api 401 "Unauthorized request"))
  else
    match jwtVerify (incoming.getD "") with
    | .error msg => (users, .error (.api 401 msg))
    | .ok decodedId =>
      match users.find? (fun u => u.id == decodedId) with
      | none => (users, .error (.api 401 "Invalid refresh token"))
      | some user =>
        if incoming != user.refreshToken then
          (users, .error (.api 401 "Refresh token is expired or used"))
        else
          match generateAccessAndRefreshTokens users user.id newAccess newRefresh with
          | (users2, .error e) => (users2, .error (.api 401 (catchMessage e)))
          | (users2, .ok tokenObj) =>
            let accessToken := tokenObj "accessToken"
            let newRefreshToken := tokenObj "newRefreshToken"
            (users2, .ok
              { status := 200
                cookies := [.set "accessToken" accessToken secureOptions,
                            .set "refreshToken" newRefreshToken secureOptions]
                body := ⟨200, ⟨accessToken, newRefreshToken⟩,
                         "Access token refreshed successfully"⟩ })

/-! ## User controller: channel profile -/

/-- A channel profile as shaped by the project stage of getUserChannelProfile. -/
structure ChannelProfile where
  id : Nat
  fullName : Option String
  username : String
  avatar : String
  coverImage : String
  totalSubscribers : Nat
  totalSubscribedTo : Nat
  isSubscribed : Bool
  deriving Repr, DecidableEq

/-- The aggregation pipeline of getUserChannelProfile (userController.js
lines 282-324). The $match stage of the source is passed a bare string
(username?.toLowerCase()) rather than a filter document, so the user
selection it denotes is not well formed; it is embedded here as an arbitrary
predicate matchPred on user documents. Both $lookup stages join
subscriptions with localField _id and foreignField channel, producing the
subscribers and subscribedTo arrays from the identical match; $addFields
takes their sizes and tests membership of the requesting user among the
subsciber fields of the subscribers array. -/
def channelPipeline (users : List UserRec) (subs : List SubscriptionRec)
    (matchPred : UserRec → Bool) (reqUserId : Option Nat) : List ChannelProfile :=
  (users.filter matchPred).map (fun u =>
    let subscribers := subs.filter (fun s => s.channel == u.id)
    let subscribedTo := subs.filter (fun s => s.channel == u.id)
    { id := u.id, fullName := u.fullName, username := u.username
      avatar := u.avatar, coverImage := u.coverImage
      totalSubscribers := subscribers.length
      totalSubscribedTo := subscribedTo.length
      isSubscribed := match reqUserId with
        | some r => subscribers.any (fun s => s.subsciber == r)
        | none => false })

/-- getUserChannelProfile (userController.js lines 277-331): require a
username (400), run the aggregation pipeline, respond 404 when it returns no
document, otherwise 200 with the channel list. -/
def getUserChannelProfile (users : List UserRec) (subs : List SubscriptionRec)
    (username : Option String)
    (matchPred : UserRec → Bool) (reqUserId : Option Nat) :
    Except JsError (Res (List ChannelProfile)) :=
  if !(jsTruthy username) then
    .error (.api 400 "Username is required")
  else
    let channel := channelPipeline users subs matchPred reqUserId
    if channel.length == 0 then
      .error (.api 404 "Channel not found")
    else
      .ok { status := 200, cookies := []
            body := ⟨200, channel, "Channel profile fetched successfully"⟩ }

/-! ## Helper predicates for the theorems -/

/-- Whether a handler result is a response rather than a thrown error. -/
def isOkResult {ε α : Type} : Except ε α → Bool
  | .ok _ => true
  | .error _ => false

/-- Whether every cookie operation of a successful response carries both the
httpOnly and secure flags (a thrown error produces no response). -/
def resultCookiesSecure {α : Type} : Except JsError (Res α) → Bool
  | .ok r => r.cookies.all CookieOp.isSecureHttpOnly
  | .error _ => true

/-- Whether every profile of a successful channel-profile response has equal
totalSubscribers and totalSubscribedTo fields. -/
def okProfilesBalanced : Except JsError (Res (List ChannelProfile)) → Bool
  | .ok r => r.body.data.all (fun p => p.totalSubscribers == p.totalSubscribedTo)
  | .error _ => true

/-! ## Theorems -/

theorem updateComment_not_owner (comments : List CommentRec)
    (commentId reqUserId : Nat) (content : Option String) (c : CommentRec)
    (hfind : comments.find? (fun x => x.id == commentId) = some c)
    (hct : jsTruthy content = true)
    (hown : (c.owner != reqUserId) = true) :
    updateComment comments commentId content reqUserId =
      (comments, .error (.api 400 "only comment owner can edit their comment")) := by
  simp [updateComment, hfind, hct, hown]

theorem deleteComment_not_owner (comments : List CommentRec) (likes : List LikeRec)
    (commentId reqUserId : Nat) (c : CommentRec)
    (hfind : comments.find? (fun x => x.id == commentId) = some c)
    (hown : (c.owner != reqUserId) = true) :
    deleteComment comments likes commentId reqUserId =
      (comments, likes, .error (.api 400 "only comment owner can delete their comment")) := by
  simp [deleteComment, hfind, hown]

/-- C2: a comment edit or delete on an existing comment succeeds only when
the requester is the owner; a non-owner request raises a 400 ApiError and
leaves the comment store (and, for delete, the like store) unchanged. -/
theorem C2_ownership_guard (comments : List CommentRec) (likes : List LikeRec)
    (commentId reqUserId : Nat) (content : Option String) (c : CommentRec)
    (hfind : comments.find? (fun x => x.id == commentId) = some c) :
    (isOkResult (updateComment comments commentId content reqUserId).2 = true →
      c.owner = reqUserId)
    ∧ (isOkResult (deleteComment comments likes commentId reqUserId).2.2 = true →
      c.owner = reqUserId)
    ∧ (c.owner ≠ reqUserId →
      updateComment comments commentId content reqUserId =
        (comments, .error (if jsTruthy content then .api 400 "only comment owner can edit their comment"
                           else .api 400 "content is required"))
      ∧ deleteComment comments likes commentId reqUserId =
        (comments, likes, .error (.api 400 "only comment owner can delete their comment"))) := by
  refine ⟨?_, ?_, ?_⟩
  · intro hok
    by_contra hne
    have hbne : (c.owner != reqUserId) = true := by simpa using hne
    cases hct : jsTruthy content with
    | false => simp [updateComment, hct, isOkResult] at hok
    | true => rw [updateComment_not_owner comments commentId reqUserId content c hfind hct hbne] at hok
              simp [isOkResult] at hok
  · intro hok
    by_contra hne
    have hbne : (c.owner != reqUserId) = true := by simpa using hne
    rw [deleteComment_not_owner comments likes commentId reqUserId c hfind hbne] at hok
    simp [isOkResult] at hok
  · intro hne
    have hbne : (c.owner != reqUserId) = true := by simpa using hne
    refine ⟨?_, deleteComment_not_owner comments likes commentId reqUserId c hfind hbne⟩
    cases hct : jsTruthy content with
    | false => simp [updateComment, hct]
    | true => simp [hct, updateComment_not_owner comments commentId reqUserId content c hfind hct hbne]

/-- C2 witness: on a concrete store, an edit and a delete by a non-owner
leave everything unchanged and raise the ownership errors. -/
theorem C2_ownership_guard_witness :
    ([({ id := 7, content := "hi", video := 3, owner := 1, createdAt := 5 } : CommentRec)].find?
        (fun x => x.id == 7) = some { id := 7, content := "hi", video := 3, owner := 1, createdAt := 5 })
    ∧ ((1 : Nat) ≠ 2 →
        updateComment [{ id := 7, content := "hi", video := 3, owner := 1, createdAt := 5 }] 7 (some "new") 2 =
          ([{ id := 7, content := "hi", video := 3, owner := 1, createdAt := 5 }],
            .error (if jsTruthy (some "new") then .api 400 "only comment owner can edit their comment"
                    else .api 400 "content is required"))
        ∧ deleteComment [{ id := 7, content := "hi", video := 3, owner := 1, createdAt := 5 }] [] 7 2 =
          ([{ id := 7, content := "hi", video := 3, owner := 1, createdAt := 5 }], [],
            .error (.api 400 "only comment owner can delete their comment"))) :=
  ⟨by decide,
   (C2_ownership_guard [{ id := 7, content := "hi", video := 3, owner := 1, createdAt := 5 }] [] 7 2
      (some "new") { id := 7, content := "hi", video := 3, owner := 1, createdAt := 5 } (by decide)).2.2⟩

/-- C3: a comment creation or edit with missing or empty content fails with
the 400 content error and changes no comment, while truthy content never
produces the content-validation error. -/
theorem C3_content_validation (videos : List Nat) (comments : List CommentRec)
    (videoId commentId reqUserId newId now : Nat) (content : Option String) :
    (jsTruthy content = false →
      addComment videos comments videoId content reqUserId newId now =
        (comments, .error (.api 400 "Content is required"))
      ∧ updateComment comments commentId content reqUserId =
        (comments, .error (.api 400 "content is required")))
    ∧ (jsTruthy content = true →
      (addComment videos comments videoId content reqUserId newId now).2 ≠
        .error (.api 400 "Content is required")
      ∧ (updateComment comments commentId content reqUserId).2 ≠
        .error (.api 400 "content is required")) := by
  constructor
  · intro h
    constructor
    · simp [addComment, h]
    · simp [updateComment, h]
  · intro h
    constructor
    · simp only [addComment, h, Bool.not_true, Bool.false_eq_true, if_false]
      split
      · intro hc; simp at hc
      · intro hc; simp at hc
    · simp only [updateComment, h, Bool.not_true, Bool.false_eq_true, if_false]
      split
      · intro hc; simp at hc
      · split
        · intro hc; simp at hc
        · split
          · intro hc; simp at hc
          · intro hc; simp at hc

/-- C3 witness: empty content is rejected on a concrete store and non-empty
content does not produce the content error. -/
theorem C3_content_validation_witness :
    (addComment [3] [] 3 (some "") 1 10 0 = ([], .error (.api 400 "Content is required"))
      ∧ updateComment [] 7 (some "") 1 = ([], .error (.api 400 "content is required")))
    ∧ ((addComment [3] [] 3 (some "ok") 1 10 0).2 ≠ .error (.api 400 "Content is required")
      ∧ (updateComment [] 7 (some "ok") 1).2 ≠ .error (.api 400 "content is required")) :=
  ⟨(C3_content_validation [3] [] 3 7 1 10 0 (some "")).1 (by decide),
   (C3_content_validation [3] [] 3 7 1 10 0 (some "ok")).2 (by decide)⟩

theorem clearRefreshToken_idem (reqUserId : Nat) (u : UserRec) :
    clearRefreshToken reqUserId (clearRefreshToken reqUserId u) =
      clearRefreshToken reqUserId u := by
  cases h : u.id == reqUserId with
  | false => simp [clearRefreshToken, h]
  | true => simp [clearRefreshToken, h]

theorem clearRefreshToken_clears (reqUserId : Nat) (u : UserRec) :
    ((clearRefreshToken reqUserId u).id != reqUserId
      || (clearRefreshToken reqUserId u).refreshToken == none) = true := by
  cases h : u.id == reqUserId with
  | false => simp [clearRefreshToken, h]; exact Or.inl (by simpa using h)
  | true => simp [clearRefreshToken, h]

theorem logout_map_idem (reqUserId : Nat) (l : List UserRec) :
    (l.map (clearRefreshToken reqUserId)).map (clearRefreshToken reqUserId)
    = l.map (clearRefreshToken reqUserId) := by
  induction l with
  | nil => rfl
  | cons a t ih => simp only [List.map_cons, ih, clearRefreshToken_idem]

theorem logout_map_clears (reqUserId : Nat) (l : List UserRec) :
    ((l.map (clearRefreshToken reqUserId)).all
      (fun u => u.id != reqUserId || u.refreshToken == none)) = true := by
  induction l with
  | nil => rfl
  | cons a t ih => simp only [List.map_cons, List.all_cons, ih, clearRefreshToken_clears,
      Bool.and_true]

/-- C5: logout is idempotent: running it twice yields the same stores and the
same response as running it once, each run responds 200 and clears both token
cookies, and afterwards the requesting user record holds no refresh token. -/
theorem C5_logout_idempotent (users : List UserRec) (reqUserId : Nat) :
    logoutUser (logoutUser users reqUserId).1 reqUserId = logoutUser users reqUserId
    ∧ (logoutUser users reqUserId).2.status = 200
    ∧ (logoutUser users reqUserId).2.cookies =
        [.clear "accessToken" secureOptions, .clear "refreshToken" secureOptions]
    ∧ ((logoutUser users reqUserId).1.all
        (fun u => u.id != reqUserId || u.refreshToken == none)) = true := by
  refine ⟨?_, rfl, rfl, ?_⟩
  · simp only [logoutUser]
    exact congrArg (fun l => (l, _)) (logout_map_idem reqUserId users)
  · simpa only [logoutUser] using logout_map_clears reqUserId users

/-- C9: a delete of an existing comment by its owner responds 200 with the
comment id and removes the comment, while the like store is unchanged: the
like-cleanup statement throws (its Like identifier is never imported) and
the error is caught and only logged. -/
theorem C9_delete_despite_cleanup_failure (comments : List CommentRec) (likes : List LikeRec)
    (commentId reqUserId : Nat) (c : CommentRec)
    (hfind : comments.find? (fun x => x.id == commentId) = some c)
    (hown : c.owner = reqUserId) :
    deleteComment comments likes commentId reqUserId =
      (comments.filter (fun x => !(x.id == commentId)), likes,
        .ok { status := 200, cookies := []
              body := ⟨200, commentId, "Comment deleted successfully"⟩ })
    ∧ isOkResult (likeCleanup likes commentId reqUserId) = false := by
  constructor
  · simp [deleteComment, hfind, hown, likeCleanup]
  · rfl

/-- C9 witness: a concrete owner delete succeeds, removes the comment, and
leaves the like store untouched. -/
theorem C9_delete_despite_cleanup_failure_witness :
    deleteComment [{ id := 7, content := "hi", video := 3, owner := 1, createdAt := 5 }]
        [{ id := 11, comment := 7, likedBy := 2 }] 7 1 =
      ([], [{ id := 11, comment := 7, likedBy := 2 }],
        .ok { status := 200, cookies := []
              body := ⟨200, 7, "Comment deleted successfully"⟩ })
    ∧ isOkResult (likeCleanup [{ id := 11, comment := 7, likedBy := 2 }] 7 1) = false :=
  C9_delete_despite_cleanup_failure
    [{ id := 7, content := "hi", video := 3, owner := 1, createdAt := 5 }]
    [{ id := 11, comment := 7, likedBy := 2 }] 7 1
    { id := 7, content := "hi", video := 3, owner := 1, createdAt := 5 } (by decide) (by decide)

/-- C1: concrete evaluation of the token refresh flow at a valid request.
The signature verifies, the stored token matches, and the stored refresh
token is replaced by the newly generated one, but the refresh-token cookie
and the response body carry undefined rather than the new token: the source
destructures the property newRefreshToken from an object whose keys are
accessToken and refreshToken. This refutes the reissue step of the claim
while exhibiting the rest of the flow. -/
theorem C1_refresh_token_undefined :
    refreshAccessToken
      [{ id := 1, username := "bob", email := some "bob@mail", fullName := some "Bob",
         password := some "pw", avatar := "a", coverImage := "", refreshToken := some "oldRT" }]
      (some "oldRT") none
      (fun t => if t == "oldRT" then .ok 1 else .error "invalid signature")
      "newAT" "newRT" =
      ([{ id := 1, username := "bob", email := some "bob@mail", fullName := some "Bob",
          password := some "pw", avatar := "a", coverImage := "", refreshToken := some "newRT" }],
       .ok { status := 200
             cookies := [.set "accessToken" (some "newAT") secureOptions,
                         .set "refreshToken" none secureOptions]
             body := ⟨200, ⟨some "newAT", none⟩, "Access token refreshed successfully"⟩ }) := by
  rfl

/-- C4: for an existing video, getVideoComments responds 200 and its data is
exactly the staged pipeline applied in order: join owner data, join like
data, derive likesCount, first owner and isLiked, sort by createdAt
descending, and paginate by the page and limit query parameters (defaulting
to 1 and 10), with no other branching. -/
theorem C4_listing_pipeline (videos : List Nat) (comments : List CommentRec)
    (users : List UserRec) (likes : List LikeRec)
    (videoId v : Nat) (page limit : Option Nat) (reqUserId : Option Nat)
    (hvid : videos.find? (fun x => x == videoId) = some v) :
    getVideoComments videos comments users likes videoId page limit reqUserId =
      .ok { status := 200, cookies := []
            body := ⟨200,
              paginateStage (page.getD 1) (limit.getD 10)
                (projectStage (sortStage (addFieldsStage reqUserId
                  (lookupLikesStage likes (lookupOwnerStage users (matchStage videoId comments)))))),
              "Comments fetched successfully"⟩ } := by
  simp [getVideoComments, hvid]

/-- C4 witness: a concrete comment listing on an existing video. -/
theorem C4_listing_pipeline_witness :
    getVideoComments [3]
      [{ id := 7, content := "hi", video := 3, owner := 1, createdAt := 5 },
       { id := 8, content := "yo", video := 3, owner := 2, createdAt := 9 }]
      [{ id := 1, username := "bob", email := some "bob@mail", fullName := some "Bob",
         password := some "pw", avatar := "a", coverImage := "", refreshToken := none }]
      [{ id := 11, comment := 7, likedBy := 2 }]
      3 none none (some 2) =
      .ok { status := 200, cookies := []
            body := ⟨200,
              paginateStage 1 10
                (projectStage (sortStage (addFieldsStage (some 2)
                  (lookupLikesStage [{ id := 11, comment := 7, likedBy := 2 }]
                    (lookupOwnerStage
                      [{ id := 1, username := "bob", email := some "bob@mail", fullName := some "Bob",
                         password := some "pw", avatar := "a", coverImage := "", refreshToken := none }]
                      (matchStage 3
                        [{ id := 7, content := "hi", video := 3, owner := 1, createdAt := 5 },
                         { id := 8, content := "yo", video := 3, owner := 2, createdAt := 9 }])))))),
              "Comments fetched successfully"⟩ } :=
  C4_listing_pipeline [3]
    [{ id := 7, content := "hi", video := 3, owner := 1, createdAt := 5 },
     { id := 8, content := "yo", video := 3, owner := 2, createdAt := 9 }]
    [{ id := 1, username := "bob", email := some "bob@mail", fullName := some "Bob",
       password := some "pw", avatar := "a", coverImage := "", refreshToken := none }]
    [{ id := 11, comment := 7, likedBy := 2 }]
    3 3 none none (some 2) (by decide)

/-- C6 counterexample: a registration request whose email belongs to an
existing user but whose fullName is the empty string fails with the 400
field error, not with 409: the empty-field check runs before the conflict
check and matches the empty string. -/
theorem C6_register_conflict_counterexample :
    registerUser
      [{ id := 1, username := "bob", email := some "bob@mail", fullName := some "Bob",
         password := some "pw", avatar := "a", coverImage := "", refreshToken := none }]
      (some "") (some "bob@mail") (some "alice") (some "secret")
      (some { avatar := some [{ path := "av" }], coverImage := some [{ path := "cv" }] })
      (fun p => p) 2 =
      ([{ id := 1, username := "bob", email := some "bob@mail", fullName := some "Bob",
          password := some "pw", avatar := "a", coverImage := "", refreshToken := none }],
       .error (.api 400 "All fields are required"))
    ∧ (JsError.api 400 "All fields are required") ≠ (JsError.api 409 "User already exists") :=
  ⟨rfl, by decide⟩

/-- C6 amended: a registration request none of whose provided fields trims to
the empty string and whose username or email already belongs to an existing
user fails with a 409 error, with the stored users unchanged, and the
outcome is independent of the upload function and of the fresh identifier. -/
theorem C6_conflict_409 (users : List UserRec)
    (fullName email username password : Option String)
    (files : Option Files) (upload : Option String → Option String) (newId : Nat)
    (hfields : ([fullName, email, username, password].any (fun f =>
        match f with | some s => jsTrim s == "" | none => false)) = false)
    (hconflict : (findOneOr users username email).isSome = true) :
    registerUser users fullName email username password files upload newId =
      (users, .error (.api 409 "User already exists")) := by
  obtain ⟨u, hu⟩ := Option.isSome_iff_exists.mp hconflict
  simp [registerUser, hfields, hu]

/-- C6 witness: a concrete conflicting registration with well-formed fields
is rejected with 409 and the store is unchanged. -/
theorem C6_conflict_409_witness :
    ([some "Alice", some "bob@mail", some "alice", some "secret"].any (fun f =>
        match f with | some s => jsTrim s == "" | none => false)) = false
    ∧ (findOneOr
        [{ id := 1, username := "bob", email := some "bob@mail", fullName := some "Bob",
           password := some "pw", avatar := "a", coverImage := "", refreshToken := none }]
        (some "alice") (some "bob@mail")).isSome = true
    ∧ registerUser
        [{ id := 1, username := "bob", email := some "bob@mail", fullName := some "Bob",
           password := some "pw", avatar := "a", coverImage := "", refreshToken := none }]
        (some "Alice") (some "bob@mail") (some "alice") (some "secret")
        (some { avatar := some [{ path := "av" }], coverImage := some [{ path := "cv" }] })
        (fun p => p) 2 =
      ([{ id := 1, username := "bob", email := some "bob@mail", fullName := some "Bob",
          password := some "pw", avatar := "a", coverImage := "", refreshToken := none }],
       .error (.api 409 "User already exists")) :=
  ⟨by decide, by decide,
   C6_conflict_409
     [{ id := 1, username := "bob", email := some "bob@mail", fullName := some "Bob",
        password := some "pw", avatar := "a", coverImage := "", refreshToken := none }]
     (some "Alice") (some "bob@mail") (some "alice") (some "secret")
     (some { avatar := some [{ path := "av" }], coverImage := some [{ path := "cv" }] })
     (fun p => p) 2 (by decide) (by decide)⟩

/-- C7: every cookie operation performed by login, logout and token refresh
carries both the httpOnly and secure flags. -/
theorem C7_cookie_flags (users : List UserRec)
    (username email password : Option String)
    (checkPassword : UserRec → Option String → Bool)
    (cookieToken bodyToken : Option String)
    (jwtVerify : String → Except String Nat)
    (newAccess newRefresh : String) (reqUserId : Nat) :
    resultCookiesSecure
      (loginUser users username email password checkPassword newAccess newRefresh).2 = true
    ∧ ((logoutUser users reqUserId).2.cookies.all CookieOp.isSecureHttpOnly) = true
    ∧ resultCookiesSecure
      (refreshAccessToken users cookieToken bodyToken jwtVerify newAccess newRefresh).2 = true := by
  refine ⟨?_, rfl, ?_⟩
  · simp only [loginUser]
    repeat' split
    all_goals rfl
  · simp only [refreshAccessToken]
    repeat' split
    all_goals rfl

/-- C8: a registration whose files object has no coverImage entry always
fails (indexing the absent cover-image array throws before the avatar
presence check can pass), while a present cover-image entry whose upload
fails is tolerated: the user is created with the empty string stored as the
cover image. -/
theorem C8_coverImage_required :
    (∀ (users : List UserRec) (fullName email username password : Option String)
        (fs : Files) (upload : Option String → Option String) (newId : Nat),
      fs.coverImage = none →
      ∃ e, registerUser users fullName email username password (some fs) upload newId =
        (users, .error e))
    ∧ (∀ (users : List UserRec) (fullName email password : Option String)
        (uname : String) (fs : Files) (upload : Option String → Option String) (newId : Nat)
        (av cov : List FileEntry) (ap avatarUrl : String),
      ([fullName, email, some uname, password].any (fun f =>
          match f with | some s => jsTrim s == "" | none => false)) = false →
      findOneOr users (some uname) email = none →
      fs.avatar = some av →
      fs.coverImage = some cov →
      av.head?.map (fun e => e.path) = some ap →
      ap ≠ "" →
      upload (some ap) = some avatarUrl →
      upload (cov.head?.map (fun e => e.path)) = none →
      ∃ res, registerUser users fullName email (some uname) password (some fs) upload newId =
        (users ++ [{ id := newId, username := jsToLowerCase uname, email := email,
                     fullName := fullName, password := password,
                     avatar := avatarUrl, coverImage := "", refreshToken := none }],
         .ok res)) := by
  constructor
  · intro users fullName email username password fs upload newId hcov
    simp only [registerUser, filesIndexPath, hcov]
    repeat' split
    all_goals exact ⟨_, rfl⟩
  · intro users fullName email password uname fs upload newId av cov ap avatarUrl
      hfields hnone havatar hcov hpath hap hupA hupC
    have htruthy : jsTruthy (some ap) = true := by simpa [jsTruthy] using hap
    simp only [registerUser, filesIndexPath, hfields, hnone, havatar, hcov, hpath, htruthy,
      hupA, hupC, Bool.not_true, Bool.false_eq_true, if_false]
    have hmem : ({ id := newId, username := jsToLowerCase uname, email := email,
                   fullName := fullName, password := password,
                   avatar := avatarUrl, coverImage := "", refreshToken := none } : UserRec) ∈
        users ++ [{ id := newId, username := jsToLowerCase uname, email := email,
                    fullName := fullName, password := password,
                    avatar := avatarUrl, coverImage := "", refreshToken := none }] := by
      simp
    split
    · rename_i heq
      have := List.find?_eq_none.mp heq _ hmem
      simp at this
    · exact ⟨_, rfl⟩

/-- C8 witness: a concrete registration without a coverImage entry fails,
and one whose cover upload fails stores the empty string. -/
theorem C8_coverImage_required_witness :
    (∃ e, registerUser []
        (some "Alice") (some "alice@mail") (some "Alice") (some "secret")
        (some { avatar := some [{ path := "av" }], coverImage := none })
        (fun p => p) 2 = ([], .error e))
    ∧ (∃ res, registerUser []
        (some "Alice") (some "alice@mail") (some "Alice") (some "secret")
        (some { avatar := some [{ path := "av" }], coverImage := some [] })
        (fun p => if p == some "av" then some "hosted-av" else none) 2 =
      ([{ id := 2, username := "alice", email := some "alice@mail",
          fullName := some "Alice", password := some "secret",
          avatar := "hosted-av", coverImage := "", refreshToken := none }],
       .ok res)) :=
  ⟨C8_coverImage_required.1 [] (some "Alice") (some "alice@mail") (some "Alice") (some "secret")
      { avatar := some [{ path := "av" }], coverImage := none } (fun p => p) 2 rfl,
   C8_coverImage_required.2 [] (some "Alice") (some "alice@mail") (some "secret") "Alice"
      { avatar := some [{ path := "av" }], coverImage := some [] }
      (fun p => if p == some "av" then some "hosted-av" else none) 2
      [{ path := "av" }] [] "av" "hosted-av"
      (by decide) (by decide) rfl rfl rfl (by decide) (by decide) (by decide)⟩

/-- C10: every profile returned by a channel-profile request has equal
totalSubscribers and totalSubscribedTo fields, since both lookups join
subscriptions on the channel field with the same local field. -/
theorem C10_subscriber_counts_equal (users : List UserRec) (subs : List SubscriptionRec)
    (username : Option String) (matchPred : UserRec → Bool) (reqUserId : Option Nat) :
    okProfilesBalanced (getUserChannelProfile users subs username matchPred reqUserId) = true := by
  have hbal : ((channelPipeline users subs matchPred reqUserId).all
      (fun p => p.totalSubscribers == p.totalSubscribedTo)) = true := by
    simp only [channelPipeline, List.all_eq_true]
    intro p hp
    simp only [List.mem_map] at hp
    obtain ⟨u, hu, rfl⟩ := hp
    simp
  unfold getUserChannelProfile
  split
  · rfl
  · dsimp only
    split
    · rfl
    · simpa only [okProfilesBalanced] using hbal

end VideoSocial
